import Mathlib

/-!
Verification of the conversation-orchestration logic of `chatgroup.py`
(repository Andy-177/ChatGroup). The definitions below are a shallow
embedding, translated from the source: the `Message` / `RobotConfig`
pydantic models, the mention parser `AIGroupChatGUI.parse_mention`, the
per-robot history filter and synthesized system prompt built inside
`AIGroupChatGUI.trigger_ai_responses`, the eligible-responder loop, the
turn-limit logic of `start_message_processor` /
`trigger_ai_response_to_ai_message`, the responder loop with its
per-responder error handling, and `AIGroupChatGUI.save_all_config`.
Python strings are Lean `String`s; character classes of the regex
`^@(\w+)\s` are modelled for the ASCII range (all inputs in the claims
are ASCII; robot names in the examples are ASCII word characters).
-/

/-- The `Role` enum of chatgroup.py. -/
inductive Role where
  | system
  | user
  | assistant
  | developer
  | function
  | tool
deriving DecidableEq

/-- The `Message` pydantic model: role, content, sender name (`name`),
optional addressee (`target`, used by the @ feature). -/
structure Message where
  role : Role
  content : String
  name : String
  target : Option String
deriving DecidableEq

/-- The `RobotConfig` pydantic model (fields in source order). -/
structure RobotConfig where
  name : String
  prompt : String
  prompt_file : Option String
  enabled : Bool
  auto_respond_to_ai : Bool
  auto_respond_to_all : Bool
  color : Option String
deriving DecidableEq

/-- Python's regex class `\w` (ASCII range): letters, digits, underscore. -/
def isWordChar (c : Char) : Bool :=
  c.isAlphanum || c == '_'

/-- Python's regex class `\s` / `str` whitespace (ASCII range):
space, tab, newline, carriage return, vertical tab, form feed. -/
def isSpaceChar (c : Char) : Bool :=
  c == ' ' || c == '\t' || c == '\n' || c == '\r' || c == '\x0b' || c == '\x0c'

/-- `re.match(r'^@(\w+)\s', content)`: a leading `@`, then a maximal
nonempty run of word characters (the group), then one whitespace
character. Returns the group and the text after the matched portion
(which is what `re.sub` of the same anchored pattern leaves). Greedy
`\w+` followed by `\s` can only succeed on the maximal word run because
no whitespace character is a word character. -/
def mentionMatch (s : String) : Option (String × String) :=
  match s.data with
  | [] => none
  | c :: cs =>
    if c = '@' then
      let nameChars := cs.takeWhile isWordChar
      if nameChars = [] then none
      else
        match cs.dropWhile isWordChar with
        | [] => none
        | d :: tail =>
          if isSpaceChar d then some (String.mk nameChars, String.mk tail) else none
    else none

/-- `AIGroupChatGUI.parse_mention` (lines 632-642): if the leading
`@name` token matches and `name` is an active robot, return the content
with the matched portion removed and the target; otherwise return the
content unchanged and no target. `activeNames` stands for the keys of
`self.active_robots`. -/
def parse_mention (activeNames : List String) (content : String) : String × Option String :=
  match mentionMatch content with
  | some (target, cleaned) =>
    if activeNames.contains target then (cleaned, some target) else (content, none)
  | none => (content, none)

/-- Python `str.startswith`, character by character. -/
def contentStartsWith (s pre : String) : Bool :=
  pre.data.isPrefixOf s.data

/-- Python `str.lstrip()` (ASCII whitespace). -/
def lstripStr (s : String) : String :=
  String.mk (s.data.dropWhile isSpaceChar)

/-- Python `str.strip()` (ASCII whitespace); used only to state the
spec's "trimmed" wording, which the code never performs. -/
def pyStrip (s : String) : String :=
  String.mk (((s.data.dropWhile isSpaceChar).reverse.dropWhile isSpaceChar).reverse)

/-- The structural marker of a per-agent persona reminder System message:
`load_all_robots_on_start` records robot prompts as messages whose content
starts with this prefix, and the per-robot history filter at line 831
skips exactly the System messages whose content starts with it. -/
def personaMarker : String := "机器人 "

/-- One iteration of the per-robot history loop of
`trigger_ai_responses` (lines 829-839): keep a System message unless its
content starts with the persona marker; keep a public message (no
target); keep a message addressed to this robot; keep the robot's own
messages; drop everything else. -/
def keepForRobot (robotName : String) (msg : Message) : Bool :=
  if msg.role = Role.system then
    !(contentStartsWith msg.content personaMarker)
  else if msg.target = none then true
  else if msg.target = some robotName then true
  else if msg.name = robotName then true
  else false

/-- The filtered history the loop at lines 829-839 appends after the
synthesized system prompt. -/
def robotSpecificHistory (robotName : String) (history : List Message) : List Message :=
  history.filter (keepForRobot robotName)

/-- The roster block `robot_list_info` built at lines 803-807. -/
def rosterInfo (userName : String) (robots : List (String × RobotConfig)) : String :=
  "群聊成员名单：\n- 用户（human）：" ++ userName ++ "\n"
    ++ String.join (robots.map (fun p => "- 机器人（robot）：" ++ p.1 ++ "\n"))

/-- The behavioral-contract block appended at lines 809-821 (the
f-string begins with a newline after the roster). -/
def contractText (robotName : String) : String :=
  "\n你是机器人（robot），名字是 " ++ robotName
    ++ "。\n你的属性：\n- 可以被 @ 并回应 @ 消息\n- 可以回应其他 AI 的消息（根据系统设置）\n- 可以回应公开消息（根据系统设置）\n\n在这个群组聊天中：\n- 你只能看到 @你 的消息或公开消息（无 @ 标记）。\n- 如果消息 @ 了其他机器人，你看不到也不能回应。\n- 如果消息 @ 了你，你必须回应。\n- 如果消息是公开的（无 @），你可以选择回应（根据系统设置）。\n回复时直接发表你的观点，不要在开头添加你的名字或任何前缀，你的名字会自动标记。"

/-- The full `system_prompt` string assembled at lines 797-821. -/
def systemPromptFor (userName : String) (robots : List (String × RobotConfig))
    (robotName : String) (cfg : RobotConfig) : String :=
  (if cfg.prompt = "" then "你的名字是" ++ robotName ++ "。\n"
   else "你的名字是" ++ robotName ++ "。" ++ cfg.prompt ++ "\n")
    ++ rosterInfo userName robots ++ contractText robotName

/-- The synthesized leading System message appended at lines 823-827. -/
def synthSystemMessage (userName : String) (robots : List (String × RobotConfig))
    (robotName : String) (cfg : RobotConfig) : Message :=
  Message.mk Role.system (systemPromptFor userName robots robotName cfg) "系统" none

/-- `robot_specific_history` as completed by lines 795-839: the
synthesized system prompt followed by the filtered chat history. -/
def buildView (userName : String) (robots : List (String × RobotConfig))
    (history : List Message) (robotName : String) (cfg : RobotConfig) : List Message :=
  synthSystemMessage userName robots robotName cfg :: robotSpecificHistory robotName history

/-- The fields of `AIGroupChatGUI` that the view construction could in
principle read; `buildView` must depend only on the snapshot triple
(user name, active robots, chat history). -/
structure AppState where
  active_robots : List (String × RobotConfig)
  chat_history : List Message
  user_name : String
  ai_conversation_turns : Nat
  infinite_loop : Bool
  ai_processing : Bool
deriving DecidableEq

/-- `buildView` as executed against the live application state. -/
def buildViewS (s : AppState) (robotName : String) (cfg : RobotConfig) : List Message :=
  buildView s.user_name s.active_robots s.chat_history robotName cfg

/-- Self-name-prefix stripping at lines 858-860: if the (already
mention-parsed) content starts with `robotName ++ ":"`, drop that prefix
and left-strip. -/
def stripSelfTag (robotName : String) (content : String) : String :=
  let tag := robotName ++ ":"
  if contentStartsWith content tag then
    lstripStr (String.mk (content.data.drop tag.data.length))
  else content

/-- Post-processing of a successful responder completion
(lines 854-868): first `parse_mention` on the raw reply, then the
self-name-prefix strip on the parsed content, then the `Message` that is
enqueued. -/
def postprocessReply (activeNames : List String) (robotName : String)
    (rawContent : String) : Message :=
  let parsed := parse_mention activeNames rawContent
  Message.mk Role.assistant (stripSelfTag robotName parsed.1) robotName parsed.2

/-- Python truthiness of the `target` field (`if last_message.target`):
`None` and the empty string are falsy. -/
def targetTruthy : Option String → Bool
  | none => false
  | some s => !(s == "")

/-- The four `continue` tests of the responder-selection loop at
lines 768-778, in source order: skip the sender; skip when a (truthy)
target names a different robot; skip when an AI-authored trigger meets a
robot without `auto_respond_to_ai`; skip a public message for a robot
without `auto_respond_to_all`. -/
def respondsTo (lastMessage : Message) (isAiMessage : Bool)
    (robotName : String) (cfg : RobotConfig) : Bool :=
  if robotName = lastMessage.name then false
  else if targetTruthy lastMessage.target && !(lastMessage.target == some robotName) then false
  else if isAiMessage && !cfg.auto_respond_to_ai then false
  else if !(targetTruthy lastMessage.target) && !cfg.auto_respond_to_all then false
  else true

/-- The `responding_robots` list assembled at lines 768-778. -/
def respondingRobots (robots : List (String × RobotConfig)) (lastMessage : Message)
    (isAiMessage : Bool) : List (String × RobotConfig) :=
  robots.filter (fun p => respondsTo lastMessage isAiMessage p.1 p.2)

/-- Modelled from the spec: the eligible-responder rule exactly as claim
C4 words it — active agents excluding the sender, with the agent's name
required to equal `target` when `target` is set, and otherwise the
public-auto-respond policy enabled or (when the trigger is autonomous and
agent-authored) the agent-auto-respond policy enabled. Kept separate from
`respondsTo`, which is translated from the code, so the two can be
compared. -/
def claimEligible (m : Message) (isAutonomous : Bool)
    (robotName : String) (cfg : RobotConfig) : Bool :=
  !(robotName == m.name) &&
    (if targetTruthy m.target then m.target == some robotName
     else cfg.auto_respond_to_all
       || (isAutonomous && (m.role == Role.assistant) && cfg.auto_respond_to_ai))

/-- The turn-control state: `self.ai_conversation_turns`,
`self.infinite_loop`, the `max_ai_conversation_turns` setting and the
`allow_ai_conversations` setting. -/
structure TurnCtl where
  turns : Nat
  infiniteLoop : Bool
  maxTurns : Nat
  allowAiConversations : Bool
deriving DecidableEq

/-- What the processing of one agent-authored submission does besides
updating the state: nothing (the processor gate at lines 448-450 failed),
the limit notice of lines 711-719, or a dispatch round. -/
inductive RoundOutcome where
  | noTrigger
  | limitNotice
  | round
deriving DecidableEq

/-- Sequential model of one agent-authored (`role == ASSISTANT`) message
passing through `start_message_processor` (lines 447-452) and, when the
gate passes, `trigger_ai_response_to_ai_message` (lines 705-725) followed
by the dispatch round (`trigger_ai_responses` increments the turn counter
at line 762). Robots are loaded, the client is configured, and no round
is in flight (`ai_processing` false) — the serialized execution the
claim's "consecutive submissions" describes. -/
def processAssistantMessage (s : TurnCtl) : TurnCtl × RoundOutcome :=
  if s.allowAiConversations = true ∧ (s.infiniteLoop = true ∨ s.turns < s.maxTurns) then
    if s.infiniteLoop = false ∧ s.maxTurns ≤ s.turns then
      (s, RoundOutcome.limitNotice)
    else
      ({ s with turns := s.turns + 1 }, RoundOutcome.round)
  else
    (s, RoundOutcome.noTrigger)

/-- `send_message` line 684: a human message resets the turn counter. -/
def onHumanMessage (s : TurnCtl) : TurnCtl :=
  { s with turns := 0 }

/-- Process `n` consecutive agent-authored submissions, collecting the
outcome of each. -/
def runSubmissions : TurnCtl → Nat → TurnCtl × List RoundOutcome
  | s, 0 => (s, [])
  | s, Nat.succ n =>
    let p := processAssistantMessage s
    let r := runSubmissions p.1 n
    (r.1, p.2 :: r.2)

/-- The main-configuration fields `save_all_config` touches (plus
`default_robots`), as stored in `main_config`. -/
structure MainConfig where
  api_key : String
  base_url : String
  model : String
  timeout : Int
  proxy : String
  allow_ai_conversations : Bool
  max_ai_conversation_turns : Int
  default_robots : List String
deriving DecidableEq

/-- The values read from the configuration dialog. `timeout` and
`max_turns` are `none` when `int()` on the entry text raises. -/
structure ConfigInputs where
  api_key : String
  base_url : String
  model : String
  timeout : Option Int
  proxy : String
  allow_ai_conversations : Bool
  max_turns : Option Int
  default_robots : List String
deriving DecidableEq

/-- `AIGroupChatGUI.save_all_config` (lines 523-559): fields are written
one at a time in source order; an invalid timeout (parse failure or
value ≤ 0) or an invalid max-turns (parse failure or value < 1) shows an
error and returns early, leaving the fields already written in place.
The Bool is `true` when the dialog closes with success. -/
def save_all_config (cfg : MainConfig) (inp : ConfigInputs) : MainConfig × Bool :=
  let cfg := { cfg with api_key := inp.api_key }
  let cfg := { cfg with base_url := inp.base_url }
  let cfg := { cfg with model := inp.model }
  match inp.timeout with
  | none => (cfg, false)
  | some t =>
    if t ≤ 0 then (cfg, false)
    else
      let cfg := { cfg with timeout := t }
      let cfg := { cfg with proxy := inp.proxy }
      let cfg := { cfg with allow_ai_conversations := inp.allow_ai_conversations }
      match inp.max_turns with
      | none => (cfg, false)
      | some mt =>
        if mt < 1 then (cfg, false)
        else
          let cfg := { cfg with max_ai_conversation_turns := mt }
          let cfg := { cfg with default_robots := inp.default_robots }
          (cfg, true)

/-- Outcome of one completion-boundary invocation: a response whose first
choice has the given content, a response with no choices, or a raised
exception with the given message. -/
inductive CallResult where
  | success (content : String)
  | empty
  | failure (err : String)
deriving DecidableEq

/-- The System message enqueued at lines 782-788 when the in-round turn
guard fires. -/
def limitStopMessage (maxTurns : Nat) : Message :=
  Message.mk Role.system
    ("已达到最大AI对话轮次(" ++ toString maxTurns ++ ")。对话已停止。") "系统" none

/-- The System message enqueued at lines 874-878 when a responder
invocation raises. -/
def failureMessage (robotName err : String) : Message :=
  Message.mk Role.system (robotName ++ " 响应失败: " ++ err) "系统" none

/-- The responder loop of `trigger_ai_responses` (lines 780-885),
collecting the messages it enqueues: each iteration first checks the
turn guard (break with a stop notice when `not infinite_loop and
turns > max_turns`), then either enqueues the post-processed reply, or
nothing when the response has no choices, or the per-responder failure
System message. The turn counter does not change during the round, so it
is a parameter. -/
def runRound (infiniteLoop : Bool) (turns maxTurns : Nat) (activeNames : List String) :
    List ((String × RobotConfig) × CallResult) → List Message
  | [] => []
  | p :: rest =>
    if infiniteLoop = false ∧ maxTurns < turns then
      [limitStopMessage maxTurns]
    else
      match p.2 with
      | CallResult.success raw =>
        postprocessReply activeNames p.1.1 raw
          :: runRound infiniteLoop turns maxTurns activeNames rest
      | CallResult.empty => runRound infiniteLoop turns maxTurns activeNames rest
      | CallResult.failure err =>
        failureMessage p.1.1 err
          :: runRound infiniteLoop turns maxTurns activeNames rest

/-! ## Helper lemmas -/

theorem isSpaceChar_not_word (c : Char) (h : isSpaceChar c = true) : isWordChar c = false := by
  simp only [isSpaceChar, Bool.or_eq_true, beq_iff_eq] at h
  rcases h with ((((h | h) | h) | h) | h) | h <;> subst h <;> decide

theorem takeWhile_append_all (p : Char → Bool) :
    ∀ (xs : List Char) (c : Char) (ys : List Char),
      (∀ x ∈ xs, p x = true) → p c = false →
      (xs ++ c :: ys).takeWhile p = xs ∧ (xs ++ c :: ys).dropWhile p = c :: ys := by
  intro xs
  induction xs with
  | nil =>
    intro c ys _ hc
    simp [List.takeWhile_cons, List.dropWhile_cons, hc]
  | cons a as ih =>
    intro c ys hall hc
    have ha : p a = true := hall a (by simp)
    have h2 := ih c ys (fun x hx => hall x (by simp [hx])) hc
    simp [List.takeWhile_cons, List.dropWhile_cons, ha, h2.1, h2.2]

theorem mentionMatch_shape (name : List Char) (c : Char) (rest : List Char)
    (hne : name ≠ []) (hword : ∀ x ∈ name, isWordChar x = true) (hc : isSpaceChar c = true) :
    mentionMatch (String.mk ('@' :: (name ++ c :: rest)))
      = some (String.mk name, String.mk rest) := by
  have hcw : isWordChar c = false := isSpaceChar_not_word c hc
  have h := takeWhile_append_all isWordChar name c rest hword hcw
  unfold mentionMatch
  simp [h.1, h.2, hne, hc]

/-! ## Claim theorems -/

/-- C1 counterexample: the per-robot history loop keeps every System
message that is not a persona reminder, even one whose `target` names a
different robot. The view built for robot `A` contains a System message
targeted at `B` whose sender is not `A`, so the claim as stated fails. -/
theorem C1_counterexample :
    Message.mk Role.system "notice" "系统" (some "B")
        ∈ robotSpecificHistory "A" [Message.mk Role.system "notice" "系统" (some "B")]
      ∧ ("B" : String) ≠ "A" ∧ ("系统" : String) ≠ "A" := by
  refine ⟨by decide, by decide, by decide⟩

/-- C1 (amended): in the filtered list built for a robot, any message
whose `target` is set to a different name and whose sender is not that
robot must be a System message; for non-System messages the
confidentiality rule holds exactly as claimed. -/
theorem C1_amended (robotName : String) (history : List Message) (msg : Message) (b : String)
    (hmem : msg ∈ robotSpecificHistory robotName history)
    (hrole : msg.role ≠ Role.system)
    (htgt : msg.target = some b)
    (hb : b ≠ robotName) :
    msg.name = robotName := by
  have h := (List.mem_filter.mp hmem).2
  unfold keepForRobot at h
  rw [if_neg hrole] at h
  rw [if_neg (by simp [htgt])] at h
  rw [if_neg (by rw [htgt]; simp [hb])] at h
  by_contra hn
  rw [if_neg hn] at h
  simp at h

/-- C1 witness: a robot's own message addressed to a third party is in
its view, and the amended theorem applies to it. -/
theorem C1_witness :
    (Message.mk Role.assistant "hi" "A" (some "B")).name = "A" :=
  C1_amended "A" [Message.mk Role.assistant "hi" "A" (some "B")]
    (Message.mk Role.assistant "hi" "A" (some "B")) "B"
    (by decide) (by decide) rfl (by decide)

/-- C2 counterexample: the persona reminder belonging to robot `Bob`
itself (content starting with the marker and naming Bob) is excluded
from the view built for Bob, although the claim says it is included. -/
theorem C2_counterexample :
    contentStartsWith "机器人 Bob 的提示词: P" personaMarker = true
      ∧ Message.mk Role.system "机器人 Bob 的提示词: P" "系统" none
          ∉ robotSpecificHistory "Bob"
              [Message.mk Role.system "机器人 Bob 的提示词: P" "系统" none] := by
  refine ⟨by decide, by decide⟩

/-- C2 (amended): a System message in the history is in the per-robot
filtered list exactly when its content does not start with the persona
marker — persona reminders are excluded for every robot, the target
robot's own reminder included; all other System messages are kept. -/
theorem C2_amended (robotName : String) (history : List Message) (msg : Message)
    (hmem : msg ∈ history) (hrole : msg.role = Role.system) :
    msg ∈ robotSpecificHistory robotName history
      ↔ contentStartsWith msg.content personaMarker = false := by
  unfold robotSpecificHistory
  rw [List.mem_filter]
  unfold keepForRobot
  rw [if_pos hrole]
  simp [hmem, Bool.not_eq_true']

/-- C2 witness: an ordinary System notice is kept in the filtered list. -/
theorem C2_witness :
    Message.mk Role.system "hello" "系统" none
        ∈ robotSpecificHistory "A" [Message.mk Role.system "hello" "系统" none]
      ↔ contentStartsWith "hello" personaMarker = false :=
  C2_amended "A" [Message.mk Role.system "hello" "系统" none]
    (Message.mk Role.system "hello" "系统" none) (by decide) rfl

/-- C9: purity of view construction — `buildView` reads only the history,
the registry snapshot and the user name; two computations against states
that agree on those (the turn counter, loop flag and processing flag may
differ, as they do between two runs) give identical output. -/
theorem C9_theorem (s1 s2 : AppState) (robotName : String) (cfg : RobotConfig)
    (hh : s1.chat_history = s2.chat_history)
    (hr : s1.active_robots = s2.active_robots)
    (hu : s1.user_name = s2.user_name) :
    buildViewS s1 robotName cfg = buildViewS s2 robotName cfg := by
  unfold buildViewS
  rw [hh, hr, hu]

/-- C9 witness: two states sharing the snapshot but differing in turn
counter, loop flag and processing flag produce the same view. -/
theorem C9_witness :
    buildViewS (AppState.mk [] [] "用户" 0 false false) "A"
        (RobotConfig.mk "A" "" none true true false none)
      = buildViewS (AppState.mk [] [] "用户" 5 true true) "A"
        (RobotConfig.mk "A" "" none true true false none) :=
  C9_theorem (AppState.mk [] [] "用户" 0 false false)
    (AppState.mk [] [] "用户" 5 true true) "A"
    (RobotConfig.mk "A" "" none true true false none) rfl rfl rfl

/-- C10: the view built for a robot is exactly one synthesized System
message followed by a subsequence of the history in its original order,
each history message appearing unmodified. -/
theorem C10_theorem (userName : String) (robots : List (String × RobotConfig))
    (history : List Message) (robotName : String) (cfg : RobotConfig) :
    ∃ rest : List Message,
      buildView userName robots history robotName cfg
          = synthSystemMessage userName robots robotName cfg :: rest
        ∧ List.Sublist rest history :=
  ⟨robotSpecificHistory robotName history, rfl, List.filter_sublist history⟩

/-- C3 counterexample: `re.sub` removes the `@name` token and exactly one
whitespace character, with no further trimming — on a double space the
cleaned text keeps a leading space, where the claim promises the trimmed
remainder. -/
theorem C3_counterexample :
    parse_mention ["Bob"] "@Bob  hello" = (" hello", some "Bob")
      ∧ pyStrip " hello" = "hello"
      ∧ parse_mention ["Bob"] "@Bob  hello" ≠ (pyStrip " hello", some "Bob") := by
  refine ⟨by decide, by decide, by decide⟩

/-- C3 (amended): if the text begins with an `@name` token (a nonempty
run of word characters) immediately followed by one whitespace character
and `name` is active, parse returns that name as target and the text
after that whitespace character unchanged (not trimmed); if the named
entity is not active, or no token matches, parse returns the original
text unchanged (not trimmed) and no target. The claim's three concrete
examples hold as stated. -/
theorem C3_amended :
    (∀ (active : List String) (name : List Char) (c : Char) (rest : List Char),
        name ≠ [] → (∀ x ∈ name, isWordChar x = true) → isSpaceChar c = true →
        active.contains (String.mk name) = true →
        parse_mention active (String.mk ('@' :: (name ++ c :: rest)))
          = (String.mk rest, some (String.mk name)))
    ∧ (∀ (active : List String) (name : List Char) (c : Char) (rest : List Char),
        name ≠ [] → (∀ x ∈ name, isWordChar x = true) → isSpaceChar c = true →
        active.contains (String.mk name) = false →
        parse_mention active (String.mk ('@' :: (name ++ c :: rest)))
          = (String.mk ('@' :: (name ++ c :: rest)), none))
    ∧ (∀ (active : List String) (s : String),
        mentionMatch s = none → parse_mention active s = (s, none))
    ∧ parse_mention ["Bob", "Ann"] "@Bob hello" = ("hello", some "Bob")
    ∧ parse_mention ["Bob"] "@Unknown hi" = ("@Unknown hi", none)
    ∧ parse_mention ["Bob"] "no mention here" = ("no mention here", none) := by
  refine ⟨?_, ?_, ?_, by decide, by decide, by decide⟩
  · intro active name c rest hne hword hc hmem
    unfold parse_mention
    rw [mentionMatch_shape name c rest hne hword hc]
    simp only [hmem]
    simp
  · intro active name c rest hne hword hc hmem
    unfold parse_mention
    rw [mentionMatch_shape name c rest hne hword hc]
    simp only [hmem]
    simp
  · intro active s hnone
    unfold parse_mention
    rw [hnone]

theorem respondsTo_eq (m : Message) (isAi : Bool) (name : String) (cfg : RobotConfig) :
    respondsTo m isAi name cfg
      = (!(name == m.name)
          && (!(targetTruthy m.target) || (m.target == some name))
          && (!isAi || cfg.auto_respond_to_ai)
          && (targetTruthy m.target || cfg.auto_respond_to_all)) := by
  by_cases h1 : name = m.name
  · simp [respondsTo, h1]
  · cases h2 : targetTruthy m.target <;> cases h3 : m.target == some name <;>
      cases h4 : isAi <;> cases h5 : cfg.auto_respond_to_ai <;>
      cases h6 : cfg.auto_respond_to_all <;>
      simp [respondsTo, h1, h2, h3, h4, h5, h6]

/-- C4 counterexample: an agent-authored message targeted at Bob does not
reach a Bob whose `auto_respond_to_ai` is disabled — the loop's third
test applies even when the message is addressed to the robot — although
the claim's rule (name equals target suffices when target is set) makes
Bob eligible. -/
theorem C4_counterexample :
    respondsTo (Message.mk Role.assistant "hi" "Ann" (some "Bob")) true "Bob"
        (RobotConfig.mk "Bob" "" none true false true none) = false
      ∧ claimEligible (Message.mk Role.assistant "hi" "Ann" (some "Bob")) true "Bob"
        (RobotConfig.mk "Bob" "" none true false true none) = true
      ∧ respondingRobots [("Bob", RobotConfig.mk "Bob" "" none true false true none)]
          (Message.mk Role.assistant "hi" "Ann" (some "Bob")) true = [] := by
  refine ⟨by decide, by decide, by decide⟩

/-- C4 (amended): an agent is invoked iff it is not the sender, its name
equals the target whenever a target is set, it has `auto_respond_to_ai`
whenever the round is autonomous (even for targeted messages), and it
has `auto_respond_to_all` whenever the message is public (even for
autonomous triggers — the two policies are required conjunctively, not
disjunctively). The claim's two scenarios hold: a human public message
reaches exactly the agents with `auto_respond_to_all`, and a human
message targeted at Bob reaches exactly Bob. -/
theorem C4_amended :
    (∀ (m : Message) (isAi : Bool) (name : String) (cfg : RobotConfig),
        respondsTo m isAi name cfg
          = (!(name == m.name)
              && (!(targetTruthy m.target) || (m.target == some name))
              && (!isAi || cfg.auto_respond_to_ai)
              && (targetTruthy m.target || cfg.auto_respond_to_all)))
    ∧ (∀ (robots : List (String × RobotConfig)) (m : Message),
        m.target = none →
        respondingRobots robots m false
          = robots.filter (fun p => !(p.1 == m.name) && p.2.auto_respond_to_all))
    ∧ (∀ (robots : List (String × RobotConfig)) (m : Message) (b : String),
        m.target = some b → b ≠ "" →
        respondingRobots robots m false
          = robots.filter (fun p => !(p.1 == m.name) && (p.1 == b))) := by
  refine ⟨respondsTo_eq, ?_, ?_⟩
  · intro robots m ht
    unfold respondingRobots
    refine List.filter_congr ?_
    intro p _
    rw [respondsTo_eq]
    simp [ht, targetTruthy]
  · intro robots m b ht hb
    unfold respondingRobots
    refine List.filter_congr ?_
    intro p _
    rw [respondsTo_eq, ht]
    have htt : targetTruthy (some b) = true := by simp [targetTruthy, hb]
    rw [htt]
    cases he : p.1 == b
    · have h2 : (some b == some p.1) = false := by
        rw [beq_eq_false_iff_ne] at he ⊢
        intro hh
        exact he (Option.some_inj.mp hh).symm
      simp [h2]
    · have h1 : p.1 = b := by rwa [beq_iff_eq] at he
      subst h1
      simp

theorem processAssistantMessage_round (s : TurnCtl) (ha : s.allowAiConversations = true)
    (_hl : s.infiniteLoop = false) (hlt : s.turns < s.maxTurns) :
    processAssistantMessage s = ({ s with turns := s.turns + 1 }, RoundOutcome.round) := by
  unfold processAssistantMessage
  rw [if_pos ⟨ha, Or.inr hlt⟩]
  rw [if_neg (fun hc => absurd hlt (Nat.not_lt.mpr hc.2))]

theorem processAssistantMessage_dropped (s : TurnCtl)
    (hl : s.infiniteLoop = false) (hge : s.maxTurns ≤ s.turns) :
    processAssistantMessage s = (s, RoundOutcome.noTrigger) := by
  unfold processAssistantMessage
  rw [if_neg]
  rintro ⟨-, hor⟩
  rcases hor with hloop | hlt
  · rw [hl] at hloop
    exact Bool.false_ne_true hloop
  · exact absurd hlt (Nat.not_lt.mpr hge)

theorem runSubmissions_rounds (m : Nat) :
    ∀ (k t : Nat), t + k ≤ m →
      runSubmissions (TurnCtl.mk t false m true) k
        = (TurnCtl.mk (t + k) false m true, List.replicate k RoundOutcome.round) := by
  intro k
  induction k with
  | zero =>
    intro t _
    simp [runSubmissions]
  | succ n ih =>
    intro t h
    have hlt : t < m := by omega
    have hstep := processAssistantMessage_round (TurnCtl.mk t false m true) rfl rfl hlt
    have hrec := ih (t + 1) (by omega)
    unfold runSubmissions
    rw [hstep]
    simp only [hrec, List.replicate_succ]
    have : t + 1 + n = t + (n + 1) := by omega
    rw [this]

theorem runSubmissions_stopped (m : Nat) :
    ∀ (k t : Nat), m ≤ t →
      runSubmissions (TurnCtl.mk t false m true) k
        = (TurnCtl.mk t false m true, List.replicate k RoundOutcome.noTrigger) := by
  intro k
  induction k with
  | zero =>
    intro t _
    simp [runSubmissions]
  | succ n ih =>
    intro t h
    have hstep := processAssistantMessage_dropped (TurnCtl.mk t false m true) rfl h
    unfold runSubmissions
    rw [hstep]
    simp only [ih t h, List.replicate_succ]


theorem runSubmissions_add (s : TurnCtl) (a b : Nat) :
    runSubmissions s (a + b)
      = ((runSubmissions (runSubmissions s a).1 b).1,
         (runSubmissions s a).2 ++ (runSubmissions (runSubmissions s a).1 b).2) := by
  induction a generalizing s with
  | zero => simp [runSubmissions]
  | succ n ih =>
    have e1 : n + 1 + b = (n + b) + 1 := by omega
    rw [e1]
    have hL : runSubmissions s ((n + b) + 1)
        = ((runSubmissions (processAssistantMessage s).1 (n + b)).1,
           (processAssistantMessage s).2
             :: (runSubmissions (processAssistantMessage s).1 (n + b)).2) := rfl
    have hR : runSubmissions s (n + 1)
        = ((runSubmissions (processAssistantMessage s).1 n).1,
           (processAssistantMessage s).2
             :: (runSubmissions (processAssistantMessage s).1 n).2) := rfl
    rw [hL, hR, ih (processAssistantMessage s).1]
    simp

/-- C5 counterexample: with `maxTurns = 1`, two consecutive agent
submissions from a reset counter execute one round and emit no
"limit reached" notice at all — the processor gate (lines 448-450)
silently skips the trigger once the counter reaches the limit, so the
claimed single limit message never appears. -/
theorem C5_counterexample :
    (runSubmissions (TurnCtl.mk 0 false 1 true) 2).2
        = [RoundOutcome.round, RoundOutcome.noTrigger]
      ∧ List.count RoundOutcome.limitNotice
          (runSubmissions (TurnCtl.mk 0 false 1 true) 2).2 = 0
      ∧ List.count RoundOutcome.round
          (runSubmissions (TurnCtl.mk 0 false 1 true) 2).2 = 1 := by
  refine ⟨by decide, by decide, by decide⟩

/-- C5 (amended): starting from `turnCount = 0` with `loopEnabled =
false` and `maxTurns ≥ 1`, `maxTurns + 1` consecutive agent-authored
submissions yield exactly `maxTurns` executed dispatch rounds and no
"limit reached" System message (the processor's own pre-check drops the
final trigger before the notice-emitting path can run; that path is
reachable only under racy interleavings), and no further autonomous
round starts until a human message resets the counter to 0, after which
the next agent submission triggers a round again. -/
theorem C5_amended (m : Nat) (hm : 1 ≤ m) :
    (runSubmissions (TurnCtl.mk 0 false m true) (m + 1)).1.turns = m
      ∧ List.count RoundOutcome.round
          (runSubmissions (TurnCtl.mk 0 false m true) (m + 1)).2 = m
      ∧ List.count RoundOutcome.limitNotice
          (runSubmissions (TurnCtl.mk 0 false m true) (m + 1)).2 = 0
      ∧ (∀ k, List.count RoundOutcome.round
          (runSubmissions (runSubmissions (TurnCtl.mk 0 false m true) (m + 1)).1 k).2 = 0)
      ∧ (processAssistantMessage
          (onHumanMessage (runSubmissions (TurnCtl.mk 0 false m true) (m + 1)).1)).2
          = RoundOutcome.round := by
  have h1 := runSubmissions_rounds m m 0 (by omega)
  rw [Nat.zero_add] at h1
  have h2 := runSubmissions_stopped m 1 m (Nat.le_refl m)
  have hmain : runSubmissions (TurnCtl.mk 0 false m true) (m + 1)
      = (TurnCtl.mk m false m true,
         List.replicate m RoundOutcome.round ++ [RoundOutcome.noTrigger]) := by
    rw [runSubmissions_add (TurnCtl.mk 0 false m true) m 1, h1]
    dsimp only
    rw [h2]
    simp
  refine ⟨?_, ?_, ?_, ?_, ?_⟩
  · rw [hmain]
  · rw [hmain]
    simp [List.count_append, List.count_replicate_self, List.count_cons]
  · rw [hmain]
    simp [List.count_append, List.count_replicate, List.count_cons]
  · intro k
    rw [hmain]
    dsimp only
    rw [runSubmissions_stopped m k m (Nat.le_refl m)]
    simp [List.count_replicate]
  · rw [hmain]
    dsimp only [onHumanMessage]
    rw [processAssistantMessage_round (TurnCtl.mk 0 false m true) rfl rfl (by exact hm)]

/-- C5 witness: the amended theorem applied at `maxTurns = 1`. -/
theorem C5_witness :
    List.count RoundOutcome.round
        (runSubmissions (TurnCtl.mk 0 false 1 true) 2).2 = 1 :=
  (C5_amended 1 (by decide)).2.1

/-- C6 counterexample: a reply that echoes the agent's own name before a
mention, `"Bob: @Ann hi"`, is emitted with the mention still in the
content and no target — the code runs the Mention Parser on the raw
reply first and strips the self-name prefix afterwards, so the claimed
result (target `Ann`, content `"hi"`) does not occur. -/
theorem C6_counterexample :
    postprocessReply ["Ann", "Bob"] "Bob" "Bob: @Ann hi"
        = Message.mk Role.assistant "@Ann hi" "Bob" none
      ∧ postprocessReply ["Ann", "Bob"] "Bob" "Bob: @Ann hi"
          ≠ Message.mk Role.assistant "hi" "Bob" (some "Ann") := by
  refine ⟨by decide, by decide⟩

/-- C6 (amended): the engine first re-runs the Mention Parser on the raw
reply and only then strips a self-name prefix from the parsed content —
the emitted message's target is whatever the parser extracts from the
raw reply, and its content is the parsed content with the self-name
prefix stripped afterwards. Consequently a reply `"<ownName>: @Other
text"` keeps the mention in its content with no target, while a reply
`"@Other text"` (no echoed prefix) yields target `Other` and content
`"text"`. -/
theorem C6_amended :
    (∀ (active : List String) (robotName raw : String),
        (postprocessReply active robotName raw).target = (parse_mention active raw).2
          ∧ (postprocessReply active robotName raw).content
              = stripSelfTag robotName (parse_mention active raw).1
          ∧ (postprocessReply active robotName raw).role = Role.assistant
          ∧ (postprocessReply active robotName raw).name = robotName)
      ∧ postprocessReply ["Ann", "Bob"] "Bob" "Bob: @Ann hi"
          = Message.mk Role.assistant "@Ann hi" "Bob" none
      ∧ postprocessReply ["Ann", "Bob"] "Bob" "@Ann hi"
          = Message.mk Role.assistant "hi" "Bob" (some "Ann") := by
  refine ⟨fun active robotName raw => ⟨rfl, rfl, rfl, rfl⟩, by decide, by decide⟩


/-- C7 counterexample: a configuration save whose max-turns entry is `0`
is rejected, yet the API key written before the validation has already
changed — the failed call is partially applied, contrary to the claim. -/
theorem C7_counterexample :
    (save_all_config (MainConfig.mk "old" "u" "m" 30 "" true 10 [])
        (ConfigInputs.mk "new" "u" "m" (some 30) "" true (some 0) [])).2 = false
      ∧ (Prod.fst (save_all_config (MainConfig.mk "old" "u" "m" 30 "" true 10 [])
          (ConfigInputs.mk "new" "u" "m" (some 30) "" true (some 0) []))).api_key = "new"
      ∧ (Prod.fst (save_all_config (MainConfig.mk "old" "u" "m" 30 "" true 10 [])
          (ConfigInputs.mk "new" "u" "m" (some 30) "" true (some 0) []))).api_key ≠ "old"
      ∧ (save_all_config (MainConfig.mk "old" "u" "m" 30 "" true 10 [])
          (ConfigInputs.mk "new" "u" "m" (some 30) "" true
            (some 0) [])).1.max_ai_conversation_turns = 10 := by
  refine ⟨by decide, by decide, by decide, by decide⟩

/-- C7 (amended): setting `maxTurns` to a value below 1 is rejected, and
the `max_ai_conversation_turns` and `default_robots` fields keep their
prior values; but the rejection is not atomic — the fields written
before the validation (api key, base URL, model, and, when the timeout
is valid, timeout, proxy and allow-AI-conversations) are already
applied by the failed call. -/
theorem C7_amended (cfg : MainConfig) (inp : ConfigInputs) (mt : Int)
    (hmt : inp.max_turns = some mt) (hlt : mt < 1) :
    (save_all_config cfg inp).2 = false
      ∧ (save_all_config cfg inp).1.max_ai_conversation_turns
          = cfg.max_ai_conversation_turns
      ∧ (save_all_config cfg inp).1.default_robots = cfg.default_robots := by
  cases ht : inp.timeout with
  | none => simp [save_all_config, ht]
  | some t =>
    by_cases h : t ≤ 0
    · simp [save_all_config, ht, h]
    · simp [save_all_config, ht, h, hmt, hlt]

/-- C7 witness: the amended theorem at a concrete rejected save. -/
theorem C7_witness :
    (save_all_config (MainConfig.mk "old" "u" "m" 30 "" true 10 [])
        (ConfigInputs.mk "new" "u" "m" (some 30) "" true (some 0) [])).2 = false
      ∧ (save_all_config (MainConfig.mk "old" "u" "m" 30 "" true 10 [])
          (ConfigInputs.mk "new" "u" "m" (some 30) "" true
            (some 0) [])).1.max_ai_conversation_turns = 10
      ∧ (save_all_config (MainConfig.mk "old" "u" "m" 30 "" true 10 [])
          (ConfigInputs.mk "new" "u" "m" (some 30) "" true
            (some 0) [])).1.default_robots = [] :=
  C7_amended (MainConfig.mk "old" "u" "m" 30 "" true 10 [])
    (ConfigInputs.mk "new" "u" "m" (some 30) "" true (some 0) []) 0 rfl (by decide)

theorem runRound_cons (infiniteLoop : Bool) (turns maxTurns : Nat)
    (activeNames : List String) (p : (String × RobotConfig) × CallResult)
    (rest : List ((String × RobotConfig) × CallResult))
    (hguard : ¬ (infiniteLoop = false ∧ maxTurns < turns)) :
    runRound infiniteLoop turns maxTurns activeNames (p :: rest)
      = (match p.2 with
          | CallResult.success raw => [postprocessReply activeNames p.1.1 raw]
          | CallResult.empty => []
          | CallResult.failure err => [failureMessage p.1.1 err])
          ++ runRound infiniteLoop turns maxTurns activeNames rest := by
  have hstep : runRound infiniteLoop turns maxTurns activeNames (p :: rest)
      = if infiniteLoop = false ∧ maxTurns < turns then [limitStopMessage maxTurns]
        else
          match p.2 with
          | CallResult.success raw =>
            postprocessReply activeNames p.1.1 raw
              :: runRound infiniteLoop turns maxTurns activeNames rest
          | CallResult.empty => runRound infiniteLoop turns maxTurns activeNames rest
          | CallResult.failure err =>
            failureMessage p.1.1 err
              :: runRound infiniteLoop turns maxTurns activeNames rest := rfl
  rw [hstep, if_neg hguard]
  cases hp : p.2 <;> simp

/-- C8: per-responder error isolation — when the in-round turn guard
does not fire, a responder whose invocation fails contributes exactly
one System message naming that agent, and the responders after it in
the round are still processed exactly as they would have been. -/
theorem C8_theorem (infiniteLoop : Bool) (turns maxTurns : Nat) (activeNames : List String)
    (pre post : List ((String × RobotConfig) × CallResult))
    (name : String) (cfg : RobotConfig) (err : String)
    (hguard : ¬ (infiniteLoop = false ∧ maxTurns < turns)) :
    runRound infiniteLoop turns maxTurns activeNames
        (pre ++ ((name, cfg), CallResult.failure err) :: post)
      = runRound infiniteLoop turns maxTurns activeNames pre
          ++ failureMessage name err
            :: runRound infiniteLoop turns maxTurns activeNames post := by
  induction pre with
  | nil =>
    rw [List.nil_append, runRound_cons _ _ _ _ _ _ hguard]
    have hnil : runRound infiniteLoop turns maxTurns activeNames [] = [] := rfl
    rw [hnil, List.nil_append]
    rfl
  | cons q qs ih =>
    rw [List.cons_append, runRound_cons _ _ _ _ _ _ hguard, ih,
      runRound_cons _ _ _ _ _ _ hguard]
    simp

/-- C8 witness: a concrete round — success, failure, success — emits the
two replies and exactly one failure notice, in order. -/
theorem C8_witness :
    runRound false 1 3 ["Ann", "Bob", "Cat"]
        ([(("Ann", RobotConfig.mk "Ann" "" none true true true none), CallResult.success "ok")]
          ++ (("Bob", RobotConfig.mk "Bob" "" none true true true none), CallResult.failure "boom")
            :: [(("Cat", RobotConfig.mk "Cat" "" none true true true none), CallResult.success "yo")])
      = runRound false 1 3 ["Ann", "Bob", "Cat"]
          [(("Ann", RobotConfig.mk "Ann" "" none true true true none), CallResult.success "ok")]
          ++ failureMessage "Bob" "boom"
            :: runRound false 1 3 ["Ann", "Bob", "Cat"]
              [(("Cat", RobotConfig.mk "Cat" "" none true true true none), CallResult.success "yo")] :=
  C8_theorem false 1 3 ["Ann", "Bob", "Cat"]
    [(("Ann", RobotConfig.mk "Ann" "" none true true true none), CallResult.success "ok")]
    [(("Cat", RobotConfig.mk "Cat" "" none true true true none), CallResult.success "yo")]
    "Bob" (RobotConfig.mk "Bob" "" none true true true none) "boom" (by decide)
